import Mathlib

/-!
Verification development for the `unix2` crate, a thin safe wrapper around a
small set of POSIX/Linux syscalls (`epoll_create1` / `epoll_ctl` / `epoll_wait`,
`select`, and the credential primitives `setgroups` / `setgid` / `setuid` /
`umask`).

The embedding is shallow: the kernel is an oracle (a structure of response
functions plus an `errno` cell), and each Rust function is translated into a
Lean function that consumes the oracle, returns the Rust function's result, and
additionally records the exact sequence of syscalls issued (a `List KernelCall`
trace).  Machine integers are modelled as `Nat` / `Int`; no arithmetic in this
crate can overflow in a way the claims depend on, except the checked
`try_into().unwrap()` conversions in `select_read_fd_timeout`, which are
modelled explicitly with `Option` (`none` = panic).  The platform modelled is
64-bit Linux (x86_64): `time_t` and `suseconds_t` are `i64`, and
`EPOLL_CLOEXEC = 0x80000 = 524288`.
-/

namespace Unix2

/-- A record of one syscall issued to the kernel, with the argument values the
wrapper passed.  Used to state "performs exactly this sequence of syscalls"
properties. -/
inductive KernelCall where
  | epollCreate1 (flags : Int)
  | epollWait (epfd : Int) (maxevents : Nat) (timeout : Int)
  | close (fd : Int)
  | setgroupsCall (size : Nat) (gid : Nat)
  | setgidCall (gid : Nat)
  | setuidCall (uid : Nat)
  | umaskCall (mode : Nat)
  | selectCall (nfds : Int) (read : List Int) (write : List Int)
      (except : List Int) (sec : Int) (usec : Int)
  deriving DecidableEq, Repr

/-- The kernel oracle: one response function per syscall the crate issues, plus
the `errno` value that `std::io::Error::last_os_error()` would observe after a
failing call. -/
structure OS where
  epoll_create1 : Int → Int
  epoll_wait : Int → Nat → Int → Int
  close : Int → Int
  setgroups : Nat → Nat → Int
  setgid : Nat → Int
  setuid : Nat → Int
  umask : Nat → Nat
  select : Int → List Int → List Int → List Int → Int → Int → Int
  errno : Nat

/-- Embedding of `fn cvt(result: libc::c_int) -> io::Result<libc::c_int>`
(src/epoll.rs): a negative kernel result becomes `Err(Error::last_os_error())`,
a non-negative result is passed through as `Ok`. -/
def cvt (os : OS) (result : Int) : Except Nat Int :=
  if result < 0 then Except.error os.errno else Except.ok result

/-- Embedding of `pub struct Events { pub bits: u32 }` (src/epoll.rs).  The
`u32` field is a `Nat`; the bitwise operations below cannot leave the 32-bit
range when their inputs are in it. -/
structure Events where
  bits : Nat
  deriving DecidableEq, Repr

/-- Embedding of `Events::empty` (src/epoll.rs). -/
def Events.empty : Events := Events.mk 0

/-- Embedding of `Events::from_bits` (src/epoll.rs). -/
def Events.from_bits (bits : Nat) : Events := Events.mk bits

/-- Embedding of `impl BitAnd for Events` (src/epoll.rs):
`Events{bits: self.bits & rhs.bits}`. -/
def Events.bitand (x y : Events) : Events := Events.mk (x.bits &&& y.bits)

/-- Embedding of `impl BitOr for Events` (src/epoll.rs):
`Events{bits: self.bits | rhs.bits}`. -/
def Events.bitor (x y : Events) : Events := Events.mk (x.bits ||| y.bits)

/-- Value of `libc::EPOLL_CLOEXEC` on Linux (`0o2000000 = 0x80000`). -/
def EPOLL_CLOEXEC : Int := 524288

/-- Embedding of `pub struct Event { events: u32, data: u64 }` (src/epoll.rs).
The `repr(packed)` layout is a memory-layout concern with no observable effect
on the field values, so it is not modelled. -/
structure Event where
  events : Nat
  data : Nat
  deriving DecidableEq, Repr

/-- Embedding of `Event::new` (src/epoll.rs): a zeroed record whose `events`
field is then set to `events.bits()` and whose `data` field is set to `data`. -/
def Event.new (events : Events) (data : Nat) : Event :=
  Event.mk events.bits data

/-- Embedding of `Event::raw_events` (src/epoll.rs). -/
def Event.raw_events (ev : Event) : Nat := ev.events

/-- Embedding of `Event::raw_data` (src/epoll.rs). -/
def Event.raw_data (ev : Event) : Nat := ev.data

/-- Embedding of the method `Event::events` (src/epoll.rs), renamed because the
structure field projection already carries the source name:
`Events::from_bits(self.events)`. -/
def Event.getEvents (ev : Event) : Events := Events.from_bits ev.events

/-- Embedding of `pub struct Epoll { epfd: RawFd }` (src/epoll.rs). -/
structure Epoll where
  epfd : Int
  deriving DecidableEq, Repr

/-- Embedding of `Epoll::create` (src/epoll.rs): flags are `EPOLL_CLOEXEC` when
`cloexec` is true and `0` otherwise; the `epoll_create1` result goes through
`cvt`. -/
def Epoll.create (os : OS) (cloexec : Bool) :
    Except Nat Epoll × List KernelCall :=
  let flags : Int := if cloexec then EPOLL_CLOEXEC else 0
  let trace := [KernelCall.epollCreate1 flags]
  match cvt os (os.epoll_create1 flags) with
  | Except.error e => (Except.error e, trace)
  | Except.ok epfd => (Except.ok (Epoll.mk epfd), trace)

/-- Embedding of `Epoll::wait` (src/epoll.rs): the timeout is clamped with
`if timeout < -1 { -1 } else { timeout }`, `epoll_wait` is issued once with the
buffer length as `maxevents`, and the result goes through `cvt`; a non-negative
count is converted `as usize`. -/
def Epoll.wait (os : OS) (self : Epoll) (timeout : Int) (bufLen : Nat) :
    Except Nat Nat × List KernelCall :=
  let epfd := self.epfd
  let t : Int := if timeout < -1 then -1 else timeout
  let trace := [KernelCall.epollWait epfd bufLen t]
  match cvt os (os.epoll_wait epfd bufLen t) with
  | Except.error e => (Except.error e, trace)
  | Except.ok n => (Except.ok n.toNat, trace)

/-- Embedding of `impl Drop for Epoll` (src/epoll.rs): one `close` on the
stored handle, its result discarded (`let _ = cvt(...)`), then
`self.epfd = -1`.  Returns the poller's post-drop state together with the
syscall trace; no error can be surfaced (the return type has no error case). -/
def Epoll.drop (os : OS) (self : Epoll) : Epoll × List KernelCall :=
  let epfd := self.epfd
  let _ := cvt os (os.close epfd)
  (Epoll.mk (-1), [KernelCall.close epfd])

/-- Embedding of `set_gid` (src/lib.rs): `libc::setgroups(1, &gid)` followed,
on success, by `libc::setgid(gid)`; each failing result (`res != 0`) returns
`Err(Error::last_os_error())` immediately. -/
def set_gid (os : OS) (gid : Nat) : Except Nat Unit × List KernelCall :=
  let r1 := os.setgroups 1 gid
  if r1 ≠ 0 then
    (Except.error os.errno, [KernelCall.setgroupsCall 1 gid])
  else
    let r2 := os.setgid gid
    if r2 ≠ 0 then
      (Except.error os.errno,
        [KernelCall.setgroupsCall 1 gid, KernelCall.setgidCall gid])
    else
      (Except.ok (),
        [KernelCall.setgroupsCall 1 gid, KernelCall.setgidCall gid])

/-- Embedding of `set_uid` (src/lib.rs): one `libc::setuid(uid)`; a result
`res != 0` returns `Err(Error::last_os_error())`. -/
def set_uid (os : OS) (uid : Nat) : Except Nat Unit × List KernelCall :=
  let r := os.setuid uid
  if r ≠ 0 then
    (Except.error os.errno, [KernelCall.setuidCall uid])
  else
    (Except.ok (), [KernelCall.setuidCall uid])

/-- Embedding of `umask` (src/lib.rs): one `libc::umask(mode)`, whose return
value (the previous mask) is always wrapped in `Ok`. -/
def umask (os : OS) (mode : Nat) : Except Nat Nat × List KernelCall :=
  let prev := os.umask mode
  (Except.ok prev, [KernelCall.umaskCall mode])

/-- Embedding of `pub struct FdSet` (src/lib.rs): the kernel `fd_set` is
modelled by the list of descriptors inserted since `FD_ZERO`. -/
structure FdSet where
  fds : List Int
  deriving DecidableEq, Repr

/-- Embedding of `FdSet::new` (src/lib.rs): `FD_ZERO` yields the empty set. -/
def FdSet.new : FdSet := FdSet.mk []

/-- Embedding of `FdSet::insert` (src/lib.rs): `FD_SET(fd, ...)`. -/
def FdSet.insert (s : FdSet) (fd : Int) : FdSet := FdSet.mk (fd :: s.fds)

/-- Embedding of `std::time::Duration` as used by this crate: a whole-second
count (`u64`) and a sub-second nanosecond count (invariant `nanos < 10^9`,
carried as a hypothesis where needed). -/
structure Duration where
  secs : Nat
  nanos : Nat
  deriving DecidableEq, Repr

/-- Embedding of `Duration::as_secs`. -/
def Duration.as_secs (d : Duration) : Nat := d.secs

/-- Embedding of `Duration::subsec_micros`. -/
def Duration.subsec_micros (d : Duration) : Nat := d.nanos / 1000

/-- Maximum value of `i64`, the representation of `time_t` and `suseconds_t`
on 64-bit Linux. -/
def i64Max : Nat := 9223372036854775807

/-- Embedding of `u64::try_into::<time_t>()`: succeeds exactly when the value
fits in `i64`. -/
def tryIntoTimeT (n : Nat) : Option Int :=
  if n ≤ i64Max then some (Int.ofNat n) else none

/-- Embedding of `u32::try_into::<suseconds_t>()`: succeeds exactly when the
value fits in `i64` (always true for an actual `u32`). -/
def tryIntoSusecondsT (n : Nat) : Option Int :=
  if n ≤ i64Max then some (Int.ofNat n) else none

/-- Largest `i32` value; `RawFd` is `i32`. -/
def i32Max : Int := 2147483647

/-- Wrapping `i32` addition: the release-build semantics of `let ub = fd + 1`
(src/lib.rs).  The wrapped result at `fd = i32::MAX` makes the next line's
`assert!(fd < ub)` fail, so the function panics there; a debug build panics at
the addition itself — both builds panic at exactly the overflowing inputs, so
modelling the wrap plus the assert captures either build. -/
def wrappingAddI32 (a b : Int) : Int :=
  (a + b + 2147483648) % 4294967296 - 2147483648

/-- Embedding of `select_read_fd_timeout` (src/lib.rs): three zeroed fd sets,
the descriptor inserted into the read set only, bound `ub = fd + 1` in wrapping
`i32` arithmetic guarded by `assert!(fd < ub)` (a failed assert panics,
modelled by `none`), timeval fields obtained by `try_into().unwrap()` (a
failing conversion panics, modelled by `none`), then one `select` whose result
maps negative to `Err`, zero to `Ok(None)` and positive to `Ok(Some(()))`. -/
def select_read_fd_timeout (os : OS) (fd : Int) (timeout : Duration) :
    Option (Except Nat (Option Unit) × List KernelCall) :=
  let read := FdSet.insert FdSet.new fd
  let write := FdSet.new
  let except := FdSet.new
  let ub := wrappingAddI32 fd 1
  if fd < ub then
    match tryIntoTimeT timeout.as_secs with
    | none => none
    | some sec =>
      match tryIntoSusecondsT timeout.subsec_micros with
      | none => none
      | some usec =>
        let r := os.select ub read.fds write.fds except.fds sec usec
        let trace := [KernelCall.selectCall ub read.fds write.fds except.fds sec usec]
        if r < 0 then
          some (Except.error os.errno, trace)
        else if r = 0 then
          some (Except.ok none, trace)
        else
          some (Except.ok (some ()), trace)
  else none

/-- A concrete kernel oracle on which every syscall succeeds (result `0`, or a
previous umask of `18` for `umask`); used to evaluate the wrappers at concrete
inputs. -/
def osOk : OS where
  epoll_create1 := fun _ => 4
  epoll_wait := fun _ _ _ => 0
  close := fun _ => 0
  setgroups := fun _ _ => 0
  setgid := fun _ => 0
  setuid := fun _ => 0
  umask := fun _ => 18
  select := fun _ _ _ _ _ _ => 1
  errno := 22

/-- A concrete kernel oracle on which every syscall fails with result `-1` and
`errno = 4` (EINTR). -/
def osFail : OS where
  epoll_create1 := fun _ => -1
  epoll_wait := fun _ _ _ => -1
  close := fun _ => -1
  setgroups := fun _ _ => -1
  setgid := fun _ => -1
  setuid := fun _ => -1
  umask := fun _ => 18
  select := fun _ _ _ _ _ _ => -1
  errno := 4

/-- C7: union (`bitor`) and intersection (`bitand`) on `Events` are commutative
and associative; `bitand x empty = empty` and `bitor x empty = x`. -/
theorem events_bitops_algebra (x y z : Events) :
    Events.bitor x y = Events.bitor y x ∧
    Events.bitor (Events.bitor x y) z = Events.bitor x (Events.bitor y z) ∧
    Events.bitand x y = Events.bitand y x ∧
    Events.bitand (Events.bitand x y) z = Events.bitand x (Events.bitand y z) ∧
    Events.bitand x Events.empty = Events.empty ∧
    Events.bitor x Events.empty = x := by
  refine ⟨?_, ?_, ?_, ?_, ?_, ?_⟩
  · simp [Events.bitor, Nat.lor_comm]
  · simp [Events.bitor, Nat.lor_assoc]
  · simp [Events.bitand, Nat.land_comm]
  · simp [Events.bitand, Nat.land_assoc]
  · simp [Events.bitand, Events.empty]
  · simp [Events.bitor, Events.empty]

/-- C8: `Event.new events data` round-trips both fields unchanged:
`raw_data` returns `data`, `raw_events` returns `events.bits`, and the
`events()` accessor returns the original interest set. -/
theorem event_new_roundtrip (e : Events) (d : Nat) :
    Event.raw_data (Event.new e d) = d ∧
    Event.raw_events (Event.new e d) = e.bits ∧
    Event.getEvents (Event.new e d) = e := by
  refine ⟨rfl, rfl, ?_⟩
  simp [Event.getEvents, Event.new, Events.from_bits]

/-- C9: `umask` always returns `Ok` with the kernel's previous mask; no input
and no kernel response makes it return `Err`. -/
theorem umask_never_errors (os : OS) (mode : Nat) :
    (umask os mode).1 = Except.ok (os.umask mode) ∧
    ∀ e, (umask os mode).1 ≠ Except.error e := by
  refine ⟨rfl, fun e h => ?_⟩
  simp [umask] at h

/-- Closed instance of `umask_never_errors` at a concrete input. -/
theorem umask_never_errors_witness :
    (umask osOk 7).1 = Except.ok 18 :=
  (umask_never_errors osOk 7).1

/-- Helper: `Epoll.wait` in closed form — one `epoll_wait` call with the
clamped timeout, then `cvt`-style mapping of the kernel result. -/
theorem wait_eq (os : OS) (self : Epoll) (t : Int) (n : Nat) :
    Epoll.wait os self t n =
      (if os.epoll_wait self.epfd n (if t < -1 then -1 else t) < 0
         then Except.error os.errno
         else Except.ok (os.epoll_wait self.epfd n (if t < -1 then -1 else t)).toNat,
       [KernelCall.epollWait self.epfd n (if t < -1 then -1 else t)]) := by
  by_cases h : os.epoll_wait self.epfd n (if t < -1 then -1 else t) < 0 <;>
    simp [Epoll.wait, cvt, h]

/-- C1: the timeout `Epoll.wait` passes to the kernel is `-1` when `t < -1`
and `t` unchanged when `t ≥ -1`; any error it returns is the kernel's
`errno` from a negative `epoll_wait` result, never a rejection of the
timeout value. -/
theorem wait_timeout_clamped (os : OS) (self : Epoll) (t : Int) (n : Nat) :
    (t < -1 → (Epoll.wait os self t n).2 = [KernelCall.epollWait self.epfd n (-1)]) ∧
    (-1 ≤ t → (Epoll.wait os self t n).2 = [KernelCall.epollWait self.epfd n t]) ∧
    (∀ e, (Epoll.wait os self t n).1 = Except.error e →
      e = os.errno ∧ os.epoll_wait self.epfd n (if t < -1 then -1 else t) < 0) := by
  refine ⟨fun h => ?_, fun h => ?_, fun e he => ?_⟩
  · rw [wait_eq]
    simp [if_pos h]
  · rw [wait_eq]
    simp [if_neg (not_lt.mpr h)]
  · rw [wait_eq] at he
    by_cases h : os.epoll_wait self.epfd n (if t < -1 then -1 else t) < 0
    · simp [if_pos h] at he
      exact ⟨he.symm, h⟩
    · simp [if_neg h] at he

/-- Closed instance of `wait_timeout_clamped`: a timeout of `-5` reaches the
kernel as `-1`, a timeout of `3` reaches it unchanged. -/
theorem wait_timeout_clamped_witness :
    (Epoll.wait osOk (Epoll.mk 4) (-5) 8).2 = [KernelCall.epollWait 4 8 (-1)] ∧
    (Epoll.wait osOk (Epoll.mk 4) 3 8).2 = [KernelCall.epollWait 4 8 3] :=
  ⟨(wait_timeout_clamped osOk (Epoll.mk 4) (-5) 8).1 (by decide),
   (wait_timeout_clamped osOk (Epoll.mk 4) 3 8).2.1 (by decide)⟩

/-- C3: `Epoll.wait` returns `Err` with the host `errno` exactly when the
kernel `epoll_wait` result is negative; a non-negative result is returned as
`Ok` with that count; exactly one kernel call is made (no internal retry). -/
theorem wait_result_mapping (os : OS) (self : Epoll) (t : Int) (n : Nat) :
    (∀ e, (Epoll.wait os self t n).1 = Except.error e ↔
      (os.epoll_wait self.epfd n (if t < -1 then -1 else t) < 0 ∧ e = os.errno)) ∧
    (0 ≤ os.epoll_wait self.epfd n (if t < -1 then -1 else t) →
      (Epoll.wait os self t n).1 =
        Except.ok (os.epoll_wait self.epfd n (if t < -1 then -1 else t)).toNat) ∧
    (Epoll.wait os self t n).2.length = 1 := by
  rw [wait_eq]
  by_cases h : os.epoll_wait self.epfd n (if t < -1 then -1 else t) < 0
  · refine ⟨fun e => ?_, fun h0 => absurd h (not_lt.mpr h0), rfl⟩
    simp [if_pos h, h, eq_comm]
  · refine ⟨fun e => ?_, fun _ => ?_, rfl⟩
    · simp [if_neg h, h]
    · simp [if_neg h]

/-- Closed instance of `wait_result_mapping`: a failing kernel (result `-1`,
`errno` 4) surfaces as `Err 4`; a succeeding kernel (result `0`) surfaces as
`Ok 0`. -/
theorem wait_result_mapping_witness :
    (Epoll.wait osFail (Epoll.mk 4) 0 8).1 = Except.error 4 ∧
    (Epoll.wait osOk (Epoll.mk 4) 0 8).1 = Except.ok 0 :=
  ⟨((wait_result_mapping osFail (Epoll.mk 4) 0 8).1 4).mpr ⟨by decide, rfl⟩,
   (wait_result_mapping osOk (Epoll.mk 4) 0 8).2.1 (by decide)⟩

/-- C4: dropping an `Epoll` issues exactly one `close` on the stored handle,
surfaces no failure (regardless of the kernel's `close` result the returned
state is the same), and sets the stored handle to the sentinel `-1`, so that a
second drop closes only `-1` and never a reused descriptor number. -/
theorem drop_closes_once (os : OS) (self : Epoll) :
    Epoll.drop os self = (Epoll.mk (-1), [KernelCall.close self.epfd]) ∧
    (Epoll.drop os (Epoll.drop os self).1).2 = [KernelCall.close (-1)] :=
  ⟨rfl, rfl⟩

/-- C6: `Epoll.create` passes `EPOLL_CLOEXEC` exactly when `cloexec` is true
(`0` otherwise), and maps a negative `epoll_create1` result to `Err errno`, a
non-negative one to `Ok` of a poller owning that handle. -/
theorem create_flags_and_result (os : OS) (cloexec : Bool) :
    (Epoll.create os cloexec).2 =
      [KernelCall.epollCreate1 (if cloexec then EPOLL_CLOEXEC else 0)] ∧
    (Epoll.create os cloexec).1 =
      (if os.epoll_create1 (if cloexec then EPOLL_CLOEXEC else 0) < 0
        then Except.error os.errno
        else Except.ok (Epoll.mk (os.epoll_create1 (if cloexec then EPOLL_CLOEXEC else 0)))) := by
  by_cases h : os.epoll_create1 (if cloexec then EPOLL_CLOEXEC else 0) < 0 <;>
    simp [Epoll.create, cvt, h]

/-- C2 counterexample: on a kernel where every call succeeds, `set_gid 0`
issues two syscalls (`setgroups(1, [0])` then `setgid(0)`), not exactly one. -/
theorem set_gid_two_syscalls :
    (set_gid osOk 0).2 =
      [KernelCall.setgroupsCall 1 0, KernelCall.setgidCall 0] ∧
    (set_gid osOk 0).2.length ≠ 1 := by
  decide

/-- C2 amended: `set_uid` and `umask` each perform exactly one syscall;
`set_gid` performs `setgroups(1, [gid])` and then, unless that failed,
`setgid(gid)`; every failure returns the kernel's reported error code. -/
theorem credential_syscall_passthrough (os : OS) (gid uid mode : Nat) :
    (set_uid os uid =
      ((if os.setuid uid ≠ 0 then Except.error os.errno else Except.ok ()),
       [KernelCall.setuidCall uid])) ∧
    (umask os mode = (Except.ok (os.umask mode), [KernelCall.umaskCall mode])) ∧
    (set_gid os gid =
      (if os.setgroups 1 gid ≠ 0 then
        (Except.error os.errno, [KernelCall.setgroupsCall 1 gid])
       else if os.setgid gid ≠ 0 then
        (Except.error os.errno,
          [KernelCall.setgroupsCall 1 gid, KernelCall.setgidCall gid])
       else
        (Except.ok (),
          [KernelCall.setgroupsCall 1 gid, KernelCall.setgidCall gid]))) := by
  refine ⟨?_, rfl, ?_⟩
  · by_cases h : os.setuid uid ≠ 0 <;> simp [set_uid, h]
  · by_cases h1 : os.setgroups 1 gid ≠ 0 <;> by_cases h2 : os.setgid gid ≠ 0 <;>
      simp [set_gid, h1, h2]

/-- C5 counterexample: at a duration whose whole-second count does not fit
`time_t`, and likewise at the descriptor `i32::MAX` (whose `fd + 1` overflows,
failing the assert), `select_read_fd_timeout` panics (modelled `none`): it
makes no kernel call and returns neither `Ok` nor `Err`. -/
theorem select_panics_on_huge_duration :
    select_read_fd_timeout osOk 3 (Duration.mk 9223372036854775808 0) = none ∧
    select_read_fd_timeout osOk 2147483647 (Duration.mk 1 0) = none := by
  exact ⟨rfl, rfl⟩

/-- C5 amended: for every descriptor that is an `i32` below `i32::MAX` (so
`fd + 1` does not overflow and the assert passes) and every duration whose
seconds fit `time_t` (the nanosecond field obeying the `Duration` invariant),
`select_read_fd_timeout` inserts the descriptor into the read set only, passes
`fd + 1` as the bound, and maps the kernel `select` result: negative to `Err
errno`, zero to `Ok none` (timed out), positive to `Ok (some ())` (ready). -/
theorem select_read_fd_mapping (os : OS) (fd : Int) (d : Duration)
    (hlo : -2147483648 ≤ fd) (hhi : fd < i32Max)
    (hs : d.secs ≤ i64Max) (hn : d.nanos < 1000000000) :
    select_read_fd_timeout os fd d =
      some
        ((if os.select (fd + 1) [fd] [] [] (Int.ofNat d.secs) (Int.ofNat (d.nanos / 1000)) < 0
            then Except.error os.errno
          else if os.select (fd + 1) [fd] [] [] (Int.ofNat d.secs) (Int.ofNat (d.nanos / 1000)) = 0
            then Except.ok none
          else Except.ok (some ())),
         [KernelCall.selectCall (fd + 1) [fd] [] [] (Int.ofNat d.secs)
            (Int.ofNat (d.nanos / 1000))]) := by
  have hm : d.nanos / 1000 ≤ i64Max := by
    unfold i64Max
    omega
  have hub : wrappingAddI32 fd 1 = fd + 1 := by
    unfold wrappingAddI32
    unfold i32Max at hhi
    omega
  have hlt : fd < fd + 1 := by omega
  simp only [select_read_fd_timeout, hub, if_pos hlt, tryIntoTimeT, tryIntoSusecondsT,
    Duration.as_secs, Duration.subsec_micros, FdSet.new, FdSet.insert, if_pos hs, if_pos hm]
  split_ifs <;> rfl

/-- Closed instance of `select_read_fd_mapping`: descriptor `3`, duration
`1s + 500000ns`, a ready kernel — one `select` call with read set `[3]`,
bound `4`, timeval `(1, 500)`, result `Ok (some ())`. -/
theorem select_read_fd_mapping_witness :
    select_read_fd_timeout osOk 3 (Duration.mk 1 500000) =
      some (Except.ok (some ()), [KernelCall.selectCall 4 [3] [] [] 1 500]) := by
  rw [select_read_fd_mapping osOk 3 (Duration.mk 1 500000) (by decide) (by decide)
    (by decide) (by decide)]
  rfl

/-- C10: a duration whose whole-second count exceeds the range of `time_t`
(or whose sub-second microsecond count exceeded the range of `suseconds_t`,
impossible under the `Duration` invariant) makes `select_read_fd_timeout`
panic on the unwrapped conversion — modelled `none` — instead of returning an
error value. -/
theorem select_panic_characterization (os : OS) (fd : Int) (d : Duration)
    (hn : d.nanos < 1000000000)
    (hover : d.as_secs > i64Max ∨ d.subsec_micros > i64Max) :
    select_read_fd_timeout os fd d = none := by
  rcases hover with h | h
  · have h' : ¬ d.as_secs ≤ i64Max := not_le.mpr h
    by_cases hfd : fd < wrappingAddI32 fd 1
    · simp [select_read_fd_timeout, hfd, tryIntoTimeT, h']
    · simp [select_read_fd_timeout, hfd]
  · exfalso
    unfold Duration.subsec_micros i64Max at h
    omega

/-- Closed instance of `select_panic_characterization`: the duration with
`2^64 - 1` whole seconds makes `select_read_fd_timeout` panic. -/
theorem select_panic_characterization_witness :
    select_read_fd_timeout osOk 5 (Duration.mk 18446744073709551615 0) = none :=
  select_panic_characterization osOk 5 (Duration.mk 18446744073709551615 0)
    (by decide) (Or.inl (by decide))

end Unix2
